import Mathlib

/-
Verification of the Nexify backend's similarity engine, connection generation,
analytics, authentication utilities and route-level error behaviour.

The Python code is embedded shallowly:
* real number arithmetic of the heuristics is embedded exactly over ℚ
  (Python float literals 0.3, 0.25, ... become the rationals they denote);
* Python dicts produced by Contact.to_dict and consumed by AIEngine are
  embedded as the record type Contact, whose fields are the string values
  of the corresponding dict entries (the engine domain is well-typed dicts);
* Python sets become Finset, Python lists become List;
* nondeterministic ingredients (SHA-256, secrets.token_hex, the wall clock,
  database commit success) become explicit parameters.
-/

namespace Nexify

/-- Embedding of Python str.lower() (per-character lowercasing). -/
def pyLower (s : String) : String := s.map Char.toLower

/-- Embedding of the Python substring test needle in hay. -/
def pyIn (needle hay : String) : Bool := decide (needle.toList <:+: hay.toList)

/-- Embedding of Python str.split() with no argument: split on whitespace
runs, producing no empty words. -/
def pySplit (s : String) : List String :=
  (s.split Char.isWhitespace).filter (fun w => w ≠ "")

/-- Embedding of str.replace(c, d) for single characters. -/
def pyReplaceChar (c d : Char) (s : String) : String :=
  s.map (fun x => if x = c then d else x)

/-- One row of the social_profiles list inside a contact dict; the engine
only ever reads the platform entry. -/
structure SocialProfile where
  platform : String
  deriving DecidableEq

/-- A contact dict as produced by Contact.to_dict (string-valued fields). -/
structure Contact where
  id : Nat
  user_id : Nat
  name : String
  email : String
  phone : String
  company : String
  position : String
  industry : String
  location : String
  notes : String
  social_profiles : List SocialProfile
  deriving DecidableEq

instance : Inhabited Contact :=
  ⟨{ id := 0, user_id := 0, name := "", email := "", phone := "", company := "",
     position := "", industry := "", location := "", notes := "", social_profiles := [] }⟩

/-- The industry_keywords table set by AIEngine.__init__. -/
def industry_keywords : List (String × List String) :=
  [("tecnología", ["tech", "software", "desarrollo", "programación", "ai", "ia", "datos", "digital"]),
   ("marketing", ["marketing", "publicidad", "social media", "contenido", "branding"]),
   ("finanzas", ["finanzas", "banca", "inversión", "contabilidad", "economía"]),
   ("salud", ["salud", "medicina", "farmacia", "hospital", "clínica"]),
   ("educación", ["educación", "universidad", "enseñanza", "formación", "academia"]),
   ("consultoría", ["consultoría", "asesoría", "estrategia", "gestión", "negocios"])]

/-- The platform_weights table set by AIEngine.__init__. -/
def platform_weights : List (String × ℚ) :=
  [("linkedin", 1), ("facebook", 7/10), ("instagram", 8/10), ("tiktok", 6/10)]

/-- self.platform_weights.get(platform, 0.5). -/
def platform_weight (p : String) : ℚ :=
  match platform_weights.find? (fun kv => kv.1 == p) with
  | some kv => kv.2
  | none => 5/10

/-- AIEngine._calculate_industry_similarity. -/
def calculate_industry_similarity (c1 c2 : Contact) : ℚ :=
  let industry1 := pyLower c1.industry
  let industry2 := pyLower c2.industry
  if industry1 = "" ∨ industry2 = "" then 0
  else if industry1 = industry2 then 1
  else if industry_keywords.any (fun kw =>
      kw.2.any (fun k => pyIn k industry1) && kw.2.any (fun k => pyIn k industry2)) then
    7/10
  else
    let words1 := (pySplit industry1).toFinset
    let words2 := (pySplit industry2).toFinset
    let common_words := words1 ∩ words2
    if common_words.Nonempty then
      (common_words.card : ℚ) / (max words1.card words2.card : ℕ)
    else 0

/-- AIEngine._calculate_location_similarity. -/
def calculate_location_similarity (c1 c2 : Contact) : ℚ :=
  let location1 := pyLower c1.location
  let location2 := pyLower c2.location
  if location1 = "" ∨ location2 = "" then 0
  else if location1 = location2 then 1
  else
    let words1 := (pySplit (pyReplaceChar ',' ' ' location1)).toFinset
    let words2 := (pySplit (pyReplaceChar ',' ' ' location2)).toFinset
    let common_words := words1 ∩ words2
    if common_words.Nonempty then
      (if 2 ≤ common_words.card then 8/10 else 5/10)
    else 0

/-- AIEngine._calculate_company_similarity. -/
def calculate_company_similarity (c1 c2 : Contact) : ℚ :=
  let company1 := pyLower c1.company
  let company2 := pyLower c2.company
  if company1 = "" ∨ company2 = "" then 0
  else if company1 = company2 then 1
  else if pyIn company1 company2 || pyIn company2 company1 then 6/10
  else 0

/-- AIEngine._calculate_social_similarity. -/
def calculate_social_similarity (c1 c2 : Contact) : ℚ :=
  let profiles1 := c1.social_profiles
  let profiles2 := c2.social_profiles
  if profiles1 = [] ∨ profiles2 = [] then 0
  else
    let platforms1 := (profiles1.map (fun p => p.platform)).toFinset
    let platforms2 := (profiles2.map (fun p => p.platform)).toFinset
    let common_platforms := platforms1 ∩ platforms2
    if ¬ common_platforms.Nonempty then 0
    else
      let total_weight := Finset.sum (platforms1 ∪ platforms2) platform_weight
      let common_weight := Finset.sum common_platforms platform_weight
      if 0 < total_weight then common_weight / total_weight else 0

def senior_keywords : List String :=
  ["ceo", "cto", "cfo", "director", "gerente", "manager", "lead", "senior"]

def mid_keywords : List String :=
  ["analista", "especialista", "coordinator", "supervisor"]

def junior_keywords : List String :=
  ["junior", "asistente", "trainee", "intern"]

/-- AIEngine._get_professional_level (0 = junior, 1 = mid, 2 = senior). -/
def get_professional_level (position : String) : Nat :=
  if senior_keywords.any (fun k => pyIn k position) then 2
  else if mid_keywords.any (fun k => pyIn k position) then 1
  else if junior_keywords.any (fun k => pyIn k position) then 0
  else 1

/-- AIEngine._calculate_professional_level_similarity. -/
def calculate_professional_level_similarity (c1 c2 : Contact) : ℚ :=
  let position1 := pyLower c1.position
  let position2 := pyLower c2.position
  if position1 = "" ∨ position2 = "" then 0
  else
    let level1 := get_professional_level position1
    let level2 := get_professional_level position2
    if level1 = level2 then 8/10
    else if ((level1 : ℤ) - (level2 : ℤ)).natAbs = 1 then 4/10
    else 0

/-- AIEngine._get_recommendation_strength. -/
def get_recommendation_strength (score : ℚ) : String :=
  if 8/10 ≤ score then "muy_alta"
  else if 6/10 ≤ score then "alta"
  else if 4/10 ≤ score then "media"
  else if 2/10 ≤ score then "baja"
  else "muy_baja"

/-- Return value of AIEngine.analyze_contact_similarity.  The factors list
keeps each label together with the raw factor score; the Python-side
two-decimal display formatting of the score inside the label string is
abstracted away (no claim depends on it). -/
structure SimilarityResult where
  similarity_score : ℚ
  factors : List (String × ℚ)
  recommendation_strength : String
  deriving DecidableEq

/-- AIEngine.analyze_contact_similarity.  Note that the min cap is applied
only in the returned dict, while the recommendation strength is computed
from the uncapped accumulated score, exactly as in the source. -/
def analyze_contact_similarity (c1 c2 : Contact) : SimilarityResult :=
  let industry_score := calculate_industry_similarity c1 c2
  let location_score := calculate_location_similarity c1 c2
  let company_score := calculate_company_similarity c1 c2
  let social_score := calculate_social_similarity c1 c2
  let level_score := calculate_professional_level_similarity c1 c2
  let similarity_score :=
    industry_score * (3/10) + location_score * (25/100) + company_score * (2/10)
      + social_score * (15/100) + level_score * (1/10)
  let factors :=
    (if 0 < industry_score then [("Industria similar", industry_score)] else []) ++
    (if 0 < location_score then [("Ubicación similar", location_score)] else []) ++
    (if 0 < company_score then [("Empresa relacionada", company_score)] else []) ++
    (if 0 < social_score then [("Presencia social similar", social_score)] else []) ++
    (if 0 < level_score then [("Nivel profesional similar", level_score)] else [])
  { similarity_score := min similarity_score 1
    factors := factors
    recommendation_strength := get_recommendation_strength similarity_score }

/-- CLAIM C1: for every pair of contact records, analyze_contact_similarity
returns a similarity_score equal to the weighted sum of the five factors
(0.3 industry + 0.25 location + 0.2 company + 0.15 social + 0.1 seniority)
capped at 1.0 by taking the minimum with 1.0. -/
theorem C1_similarity_score_is_capped_weighted_sum (c1 c2 : Contact) :
    (analyze_contact_similarity c1 c2).similarity_score =
      min ((3/10) * calculate_industry_similarity c1 c2
        + (25/100) * calculate_location_similarity c1 c2
        + (2/10) * calculate_company_similarity c1 c2
        + (15/100) * calculate_social_similarity c1 c2
        + (1/10) * calculate_professional_level_similarity c1 c2) 1 := by
  show min _ 1 = min _ 1
  congr 1
  ring

lemma inter_card_div_max_le_one (s t : Finset String) (h : (s ∩ t).Nonempty) :
    ((s ∩ t).card : ℚ) / (max s.card t.card : ℕ) ≤ 1 := by
  have h1 : (s ∩ t).card ≤ s.card := Finset.card_le_card Finset.inter_subset_left
  have h2 : (s ∩ t).card ≤ max s.card t.card := le_trans h1 (le_max_left _ _)
  have h3 : 0 < (s ∩ t).card := Finset.card_pos.mpr h
  have h4 : (0 : ℚ) < ((max s.card t.card : ℕ) : ℚ) := by
    exact_mod_cast lt_of_lt_of_le h3 h2
  rw [div_le_one h4]
  exact_mod_cast h2

lemma industry_sim_nonneg (c1 c2 : Contact) : 0 ≤ calculate_industry_similarity c1 c2 := by
  simp only [calculate_industry_similarity]
  split_ifs <;> positivity

lemma industry_sim_le_one (c1 c2 : Contact) : calculate_industry_similarity c1 c2 ≤ 1 := by
  simp only [calculate_industry_similarity]
  split_ifs with h1 h2 h3 h4
  · norm_num
  · norm_num
  · norm_num
  · exact inter_card_div_max_le_one _ _ h4
  · norm_num

lemma location_sim_nonneg (c1 c2 : Contact) : 0 ≤ calculate_location_similarity c1 c2 := by
  simp only [calculate_location_similarity]
  split_ifs <;> norm_num

lemma location_sim_le_one (c1 c2 : Contact) : calculate_location_similarity c1 c2 ≤ 1 := by
  simp only [calculate_location_similarity]
  split_ifs <;> norm_num

lemma company_sim_nonneg (c1 c2 : Contact) : 0 ≤ calculate_company_similarity c1 c2 := by
  simp only [calculate_company_similarity]
  split_ifs <;> norm_num

lemma company_sim_le_one (c1 c2 : Contact) : calculate_company_similarity c1 c2 ≤ 1 := by
  simp only [calculate_company_similarity]
  split_ifs <;> norm_num

lemma platform_weight_pos (p : String) : 0 < platform_weight p := by
  unfold platform_weight
  cases hfind : platform_weights.find? (fun kv => kv.1 == p) with
  | none => norm_num
  | some kv =>
    have hmem : kv ∈ platform_weights := List.mem_of_find?_eq_some hfind
    simp only [platform_weights, List.mem_cons, List.not_mem_nil, or_false] at hmem
    rcases hmem with h | h | h | h <;> subst h <;> norm_num

lemma social_sim_nonneg (c1 c2 : Contact) : 0 ≤ calculate_social_similarity c1 c2 := by
  simp only [calculate_social_similarity]
  split_ifs with h1 h2 h3
  all_goals try norm_num
  all_goals
    exact div_nonneg (Finset.sum_nonneg fun p _ => le_of_lt (platform_weight_pos p))
      (Finset.sum_nonneg fun p _ => le_of_lt (platform_weight_pos p))

lemma social_sim_le_one (c1 c2 : Contact) : calculate_social_similarity c1 c2 ≤ 1 := by
  simp only [calculate_social_similarity]
  split_ifs with h1 h2 h3
  all_goals try norm_num
  all_goals
    rw [div_le_one h3]
    exact Finset.sum_le_sum_of_subset_of_nonneg
      (le_trans Finset.inter_subset_left Finset.subset_union_left)
      (fun p _ _ => le_of_lt (platform_weight_pos p))

lemma level_sim_nonneg (c1 c2 : Contact) :
    0 ≤ calculate_professional_level_similarity c1 c2 := by
  simp only [calculate_professional_level_similarity]
  split_ifs <;> norm_num

lemma level_sim_le_one (c1 c2 : Contact) :
    calculate_professional_level_similarity c1 c2 ≤ 1 := by
  simp only [calculate_professional_level_similarity]
  split_ifs <;> norm_num

lemma weighted_sum_nonneg (c1 c2 : Contact) :
    0 ≤ calculate_industry_similarity c1 c2 * (3/10)
      + calculate_location_similarity c1 c2 * (25/100)
      + calculate_company_similarity c1 c2 * (2/10)
      + calculate_social_similarity c1 c2 * (15/100)
      + calculate_professional_level_similarity c1 c2 * (1/10) := by
  have h1 := industry_sim_nonneg c1 c2
  have h2 := location_sim_nonneg c1 c2
  have h3 := company_sim_nonneg c1 c2
  have h4 := social_sim_nonneg c1 c2
  have h5 := level_sim_nonneg c1 c2
  linarith

lemma weighted_sum_le_one (c1 c2 : Contact) :
    calculate_industry_similarity c1 c2 * (3/10)
      + calculate_location_similarity c1 c2 * (25/100)
      + calculate_company_similarity c1 c2 * (2/10)
      + calculate_social_similarity c1 c2 * (15/100)
      + calculate_professional_level_similarity c1 c2 * (1/10) ≤ 1 := by
  have h1 := industry_sim_le_one c1 c2
  have h2 := location_sim_le_one c1 c2
  have h3 := company_sim_le_one c1 c2
  have h4 := social_sim_le_one c1 c2
  have h5 := level_sim_le_one c1 c2
  linarith

/-- CLAIM C2: each of the five factor functions returns a value in [0, 1];
consequently the similarity_score returned by analyze_contact_similarity
also lies in [0, 1], and the cap at 1.0 never reduces the weighted sum
because the weights total 1.0. -/
theorem C2_factors_normalized_score_in_unit_interval_cap_never_reduces (c1 c2 : Contact) :
    (0 ≤ calculate_industry_similarity c1 c2 ∧ calculate_industry_similarity c1 c2 ≤ 1)
  ∧ (0 ≤ calculate_location_similarity c1 c2 ∧ calculate_location_similarity c1 c2 ≤ 1)
  ∧ (0 ≤ calculate_company_similarity c1 c2 ∧ calculate_company_similarity c1 c2 ≤ 1)
  ∧ (0 ≤ calculate_social_similarity c1 c2 ∧ calculate_social_similarity c1 c2 ≤ 1)
  ∧ (0 ≤ calculate_professional_level_similarity c1 c2
      ∧ calculate_professional_level_similarity c1 c2 ≤ 1)
  ∧ (0 ≤ (analyze_contact_similarity c1 c2).similarity_score
      ∧ (analyze_contact_similarity c1 c2).similarity_score ≤ 1)
  ∧ (analyze_contact_similarity c1 c2).similarity_score =
      calculate_industry_similarity c1 c2 * (3/10)
        + calculate_location_similarity c1 c2 * (25/100)
        + calculate_company_similarity c1 c2 * (2/10)
        + calculate_social_similarity c1 c2 * (15/100)
        + calculate_professional_level_similarity c1 c2 * (1/10) := by
  have hsum0 := weighted_sum_nonneg c1 c2
  have hsum1 := weighted_sum_le_one c1 c2
  have hscore : (analyze_contact_similarity c1 c2).similarity_score =
      calculate_industry_similarity c1 c2 * (3/10)
        + calculate_location_similarity c1 c2 * (25/100)
        + calculate_company_similarity c1 c2 * (2/10)
        + calculate_social_similarity c1 c2 * (15/100)
        + calculate_professional_level_similarity c1 c2 * (1/10) := by
    show min _ 1 = _
    exact min_eq_left hsum1
  refine ⟨⟨industry_sim_nonneg c1 c2, industry_sim_le_one c1 c2⟩,
    ⟨location_sim_nonneg c1 c2, location_sim_le_one c1 c2⟩,
    ⟨company_sim_nonneg c1 c2, company_sim_le_one c1 c2⟩,
    ⟨social_sim_nonneg c1 c2, social_sim_le_one c1 c2⟩,
    ⟨level_sim_nonneg c1 c2, level_sim_le_one c1 c2⟩,
    ⟨?_, ?_⟩, hscore⟩
  · rw [hscore]; exact hsum0
  · rw [hscore]; exact hsum1

lemma any_and_comm {α : Type} (l : List α) (f g : α → Bool) :
    l.any (fun x => f x && g x) = l.any (fun x => g x && f x) := by
  induction l with
  | nil => rfl
  | cons a t ih => simp only [List.any_cons, ih, Bool.and_comm]

lemma natAbs_sub_swap (a b : ℤ) : (a - b).natAbs = (b - a).natAbs := by
  rw [← Int.natAbs_neg (a - b), neg_sub]

lemma industry_sim_comm (c1 c2 : Contact) :
    calculate_industry_similarity c1 c2 = calculate_industry_similarity c2 c1 := by
  simp only [calculate_industry_similarity]
  simp only [or_comm, eq_comm, Bool.and_comm, Finset.inter_comm, max_comm]

lemma location_sim_comm (c1 c2 : Contact) :
    calculate_location_similarity c1 c2 = calculate_location_similarity c2 c1 := by
  simp only [calculate_location_similarity]
  simp only [or_comm, eq_comm, Finset.inter_comm]

lemma company_sim_comm (c1 c2 : Contact) :
    calculate_company_similarity c1 c2 = calculate_company_similarity c2 c1 := by
  simp only [calculate_company_similarity]
  simp only [or_comm, eq_comm, Bool.or_comm]

lemma social_sim_comm (c1 c2 : Contact) :
    calculate_social_similarity c1 c2 = calculate_social_similarity c2 c1 := by
  simp only [calculate_social_similarity]
  simp only [or_comm, Finset.inter_comm, Finset.union_comm]

lemma level_sim_comm (c1 c2 : Contact) :
    calculate_professional_level_similarity c1 c2
      = calculate_professional_level_similarity c2 c1 := by
  simp only [calculate_professional_level_similarity]
  simp only [or_comm, eq_comm, natAbs_sub_swap]

/-- CLAIM C8: pairwise similarity is symmetric; swapping the two contact
arguments leaves both the similarity_score and the recommendation_strength
unchanged, because each of the five factor functions is symmetric. -/
theorem C8_similarity_symmetric (c1 c2 : Contact) :
    ((analyze_contact_similarity c1 c2).similarity_score
        = (analyze_contact_similarity c2 c1).similarity_score
      ∧ (analyze_contact_similarity c1 c2).recommendation_strength
        = (analyze_contact_similarity c2 c1).recommendation_strength)
  ∧ calculate_industry_similarity c1 c2 = calculate_industry_similarity c2 c1
  ∧ calculate_location_similarity c1 c2 = calculate_location_similarity c2 c1
  ∧ calculate_company_similarity c1 c2 = calculate_company_similarity c2 c1
  ∧ calculate_social_similarity c1 c2 = calculate_social_similarity c2 c1
  ∧ calculate_professional_level_similarity c1 c2
      = calculate_professional_level_similarity c2 c1 := by
  have hi := industry_sim_comm c1 c2
  have hl := location_sim_comm c1 c2
  have hc := company_sim_comm c1 c2
  have hs := social_sim_comm c1 c2
  have hp := level_sim_comm c1 c2
  refine ⟨⟨?_, ?_⟩, hi, hl, hc, hs, hp⟩
  · simp only [analyze_contact_similarity]
    rw [hi, hl, hc, hs, hp]
  · simp only [analyze_contact_similarity]
    rw [hi, hl, hc, hs, hp]

/-- The AIEngine instance state: the two configuration tables assigned by
AIEngine.__init__ (the similarity methods read them and never write any
attribute of self). -/
structure AIEngine where
  industry_keywords : List (String × List String)
  platform_weights : List (String × ℚ)
  deriving DecidableEq

/-- The state AIEngine.__init__ builds. -/
def AIEngine.init : AIEngine :=
  { industry_keywords := Nexify.industry_keywords,
    platform_weights := Nexify.platform_weights }

/-- State-threading embedding of a call to analyze_contact_similarity: the
method receives self and the two contact dicts by reference; its body
contains no assignment to any of them, so the translated call returns the
result together with the engine state and both arguments unchanged. -/
def analyze_contact_similarity_call (e : AIEngine) (c1 c2 : Contact) :
    SimilarityResult × AIEngine × Contact × Contact :=
  (analyze_contact_similarity c1 c2, e, c1, c2)

lemma analyze_reads_only_engine_fields (c1 c2 d1 d2 : Contact)
    (h1i : d1.industry = c1.industry) (h1l : d1.location = c1.location)
    (h1c : d1.company = c1.company) (h1p : d1.position = c1.position)
    (h1s : d1.social_profiles = c1.social_profiles)
    (h2i : d2.industry = c2.industry) (h2l : d2.location = c2.location)
    (h2c : d2.company = c2.company) (h2p : d2.position = c2.position)
    (h2s : d2.social_profiles = c2.social_profiles) :
    analyze_contact_similarity d1 d2 = analyze_contact_similarity c1 c2 := by
  simp only [analyze_contact_similarity, calculate_industry_similarity,
    calculate_location_similarity, calculate_company_similarity,
    calculate_social_similarity, calculate_professional_level_similarity,
    h1i, h1l, h1c, h1p, h1s, h2i, h2l, h2c, h2p, h2s]

/-- CLAIM C3: analyze_contact_similarity is deterministic and stateless:
two calls on equal inputs return equal results, a call mutates neither the
engine instance nor its two input records, and the result depends only on
the fields the method reads (industry, location, company, position and the
social-profile platforms) — not on any other field and not on any mutable
state. -/
theorem C3_analyze_deterministic_stateless (e : AIEngine) (c1 c2 d1 d2 : Contact)
    (h1i : d1.industry = c1.industry) (h1l : d1.location = c1.location)
    (h1c : d1.company = c1.company) (h1p : d1.position = c1.position)
    (h1s : d1.social_profiles = c1.social_profiles)
    (h2i : d2.industry = c2.industry) (h2l : d2.location = c2.location)
    (h2c : d2.company = c2.company) (h2p : d2.position = c2.position)
    (h2s : d2.social_profiles = c2.social_profiles) :
    analyze_contact_similarity_call e c1 c2 = analyze_contact_similarity_call e c1 c2
  ∧ (analyze_contact_similarity_call e c1 c2).2.1 = e
  ∧ (analyze_contact_similarity_call e c1 c2).2.2.1 = c1
  ∧ (analyze_contact_similarity_call e c1 c2).2.2.2 = c2
  ∧ analyze_contact_similarity d1 d2 = analyze_contact_similarity c1 c2 := by
  exact ⟨rfl, rfl, rfl, rfl,
    analyze_reads_only_engine_fields c1 c2 d1 d2 h1i h1l h1c h1p h1s h2i h2l h2c h2p h2s⟩

/-- Example contacts used to witness the theorems with hypotheses. -/
def exampleContact1 : Contact :=
  { id := 1, user_id := 1, name := "Ana", email := "ana@acme.com", phone := "",
    company := "acme", position := "ceo", industry := "tech",
    location := "madrid, españa", notes := "",
    social_profiles := [{ platform := "linkedin" }, { platform := "tiktok" }] }

def exampleContact2 : Contact :=
  { id := 2, user_id := 1, name := "Bruno", email := "", phone := "",
    company := "acme group", position := "director", industry := "tech",
    location := "madrid, españa", notes := "",
    social_profiles := [{ platform := "linkedin" }] }

/-- exampleContact1 with only unread fields changed. -/
def exampleContact1b : Contact :=
  { exampleContact1 with name := "Anna", email := "other@acme.com", notes := "x" }

/-- Witness for C3 at concrete inputs: the frame hypotheses hold for
exampleContact1b (which differs from exampleContact1 only in unread
fields), and the instantiated conclusion follows by the theorem. -/
theorem C3_analyze_deterministic_stateless_witness :
    analyze_contact_similarity_call AIEngine.init exampleContact1 exampleContact2
        = analyze_contact_similarity_call AIEngine.init exampleContact1 exampleContact2
  ∧ (analyze_contact_similarity_call AIEngine.init exampleContact1 exampleContact2).2.1
        = AIEngine.init
  ∧ (analyze_contact_similarity_call AIEngine.init exampleContact1 exampleContact2).2.2.1
        = exampleContact1
  ∧ (analyze_contact_similarity_call AIEngine.init exampleContact1 exampleContact2).2.2.2
        = exampleContact2
  ∧ analyze_contact_similarity exampleContact1b exampleContact2
        = analyze_contact_similarity exampleContact1 exampleContact2 :=
  C3_analyze_deterministic_stateless AIEngine.init exampleContact1 exampleContact2
    exampleContact1b exampleContact2 (by decide) (by decide) (by decide) (by decide)
    (by decide) (by decide) (by decide) (by decide) (by decide) (by decide)

/-- A row of the connection table, as built by generate_connections. -/
structure Connection where
  user_id : Nat
  contact_id : Nat
  suggested_contact_id : Nat
  connection_type : String
  confidence_score : ℚ
  reasoning : String
  status : String
  deriving DecidableEq

/-- determine_connection_type_from_analysis (routes/connections.py). -/
def determine_connection_type_from_analysis (analysis : SimilarityResult) : String :=
  let factors := analysis.factors
  if factors.any (fun f => pyIn "Industria" f.1) then
    (if factors.any (fun f => pyIn "Ubicación" f.1) then "industry_location_match"
     else "industry_match")
  else if factors.any (fun f => pyIn "Ubicación" f.1) then "location_match"
  else if factors.any (fun f => pyIn "Empresa" f.1) then "company_match"
  else if factors.any (fun f => pyIn "social" f.1) then "social_match"
  else "ai_recommended"

/-- AIEngine.generate_connection_reasoning. -/
def generate_connection_reasoning (c1 : Contact) (analysis : SimilarityResult) : String :=
  let factors := analysis.factors
  let score := analysis.similarity_score
  if factors = [] then
    "Perfiles complementarios que podrían beneficiarse de una conexión profesional."
  else
    let reasoning_parts : List String :=
      (if factors.any (fun f => pyIn "Industria" f.1) then
        ["Ambos profesionales trabajan en " ++ c1.industry] else []) ++
      (if factors.any (fun f => pyIn "Ubicación" f.1) then
        ["Se encuentran en la misma ubicación geográfica (" ++ c1.location ++ ")"] else []) ++
      (if factors.any (fun f => pyIn "Empresa" f.1) then
        ["Tienen conexiones empresariales relacionadas"] else []) ++
      (if factors.any (fun f => pyIn "social" f.1) then
        ["Comparten presencia en plataformas sociales similares"] else []) ++
      [if 7/10 ≤ score then "Esta conexión tiene un alto potencial de éxito y beneficio mutuo"
       else if 5/10 ≤ score then "Existe una buena oportunidad de colaboración profesional"
       else "Podría ser una conexión valiosa para expandir la red profesional"]
    String.intercalate ". " reasoning_parts ++ "."

/-- Index pairs (i, j) with i < j < n, in the order produced by the two
nested loops of generate_connections. -/
def pairIndices (n : Nat) : List (Nat × Nat) :=
  (List.range n).flatMap (fun i => (List.range' (i+1) (n - (i+1))).map (fun j => (i, j)))

/-- Body of the inner loop of generate_connections for one contact pair:
the Connection row queued for persistence, if any.  The existence check
runs against the connection rows already committed when the request
started, because the new suggestions are only added to the session after
the loop. -/
def mk_suggestion (uid : Nat) (connections : List Connection) (c1 c2 : Contact) :
    Option Connection :=
  let analysis := analyze_contact_similarity c1 c2
  if 3/10 ≤ analysis.similarity_score then
    (if connections.any (fun cn => cn.user_id == uid && cn.contact_id == c1.id
        && cn.suggested_contact_id == c2.id) then
      none
    else
      some { user_id := uid, contact_id := c1.id, suggested_contact_id := c2.id,
             connection_type := determine_connection_type_from_analysis analysis,
             confidence_score := analysis.similarity_score,
             reasoning := generate_connection_reasoning c1 analysis,
             status := "pending" })
  else none

/-- POST /connections/generate: with fewer than 2 contacts the route
answers HTTP 400; otherwise it commits exactly the rows produced by the
nested loop over index pairs. -/
def generate_connections (uid : Nat) (connections : List Connection)
    (contacts : List Contact) : Except Nat (List Connection) :=
  if contacts.length < 2 then Except.error 400
  else Except.ok ((pairIndices contacts.length).filterMap (fun ij =>
    mk_suggestion uid connections (contacts.getD ij.1 default) (contacts.getD ij.2 default)))

/-- The Connection row generate_connections builds for the contact pair at
index positions i < j. -/
def suggested_row (uid : Nat) (contacts : List Contact) (i j : Nat) : Connection :=
  { user_id := uid,
    contact_id := (contacts.getD i default).id,
    suggested_contact_id := (contacts.getD j default).id,
    connection_type := determine_connection_type_from_analysis
      (analyze_contact_similarity (contacts.getD i default) (contacts.getD j default)),
    confidence_score := (analyze_contact_similarity (contacts.getD i default)
      (contacts.getD j default)).similarity_score,
    reasoning := generate_connection_reasoning (contacts.getD i default)
      (analyze_contact_similarity (contacts.getD i default) (contacts.getD j default)),
    status := "pending" }

/-- Declarative description of the rows generate_connections persists: a
row is persisted exactly for those index pairs i < j whose similarity
score reaches the threshold 0.3 and for which no connection row with the
same user and same ordered pair of contact ids already exists; the row
carries status pending and the pair's similarity score as its confidence
score (it is the row suggested_row uid contacts i j). -/
def generated_rows_spec (uid : Nat) (connections : List Connection)
    (contacts : List Contact) (added : List Connection) : Prop :=
  ∀ cn, cn ∈ added ↔ ∃ i j, i < j ∧ j < contacts.length
    ∧ 3/10 ≤ (analyze_contact_similarity (contacts.getD i default)
        (contacts.getD j default)).similarity_score
    ∧ ¬ (∃ c0 ∈ connections, c0.user_id = uid
        ∧ c0.contact_id = (contacts.getD i default).id
        ∧ c0.suggested_contact_id = (contacts.getD j default).id)
    ∧ cn = suggested_row uid contacts i j

lemma mem_pairIndices (n i j : Nat) : (i, j) ∈ pairIndices n ↔ i < j ∧ j < n := by
  simp only [pairIndices, List.mem_flatMap, List.mem_map, List.mem_range,
    List.mem_range'_1, Prod.mk.injEq]
  constructor
  · rintro ⟨a, ha, b, ⟨hb1, hb2⟩, hai, hbj⟩
    subst hai; subst hbj
    omega
  · rintro ⟨hij, hjn⟩
    exact ⟨i, by omega, j, ⟨by omega, by omega⟩, rfl, rfl⟩

lemma connection_exists_bool (uid : Nat) (connections : List Connection) (a b : Nat) :
    (connections.any (fun cn => cn.user_id == uid && cn.contact_id == a
        && cn.suggested_contact_id == b)) = true ↔
      ∃ c0 ∈ connections, c0.user_id = uid ∧ c0.contact_id = a
        ∧ c0.suggested_contact_id = b := by
  simp [List.any_eq_true, Bool.and_eq_true, beq_iff_eq, and_assoc]

lemma mk_suggestion_eq_some (uid : Nat) (connections : List Connection)
    (contacts : List Contact) (i j : Nat) (cn : Connection) :
    mk_suggestion uid connections (contacts.getD i default) (contacts.getD j default)
        = some cn ↔
      3/10 ≤ (analyze_contact_similarity (contacts.getD i default)
          (contacts.getD j default)).similarity_score
      ∧ ¬ (∃ c0 ∈ connections, c0.user_id = uid
          ∧ c0.contact_id = (contacts.getD i default).id
          ∧ c0.suggested_contact_id = (contacts.getD j default).id)
      ∧ cn = suggested_row uid contacts i j := by
  simp only [mk_suggestion, suggested_row]
  split_ifs with h1 h2
  · constructor
    · intro h; cases h
    · rintro ⟨-, hno, -⟩
      exact absurd ((connection_exists_bool uid connections _ _).mp h2) hno
  · constructor
    · intro h
      injection h with h
      refine ⟨h1, ?_, h.symm⟩
      intro hex
      exact h2 ((connection_exists_bool uid connections _ _).mpr hex)
    · rintro ⟨-, -, rfl⟩; rfl
  · constructor
    · intro h; cases h
    · rintro ⟨hs, -, -⟩; exact absurd hs h1

/-- CLAIM C4: for every user with at least 2 contacts, generate_connections
persists, for each index pair i < j of distinct contacts, a new pending
Connection whose confidence_score is the pair's similarity score if and
only if that score is at least 0.3 and no Connection already exists for
that user and ordered pair (contact_id, suggested_contact_id); other pairs
contribute no row and existing rows are left unchanged. -/
theorem C4_generate_connections_characterized (uid : Nat)
    (connections : List Connection) (contacts : List Contact)
    (h2 : 2 ≤ contacts.length) :
    ∃ added, generate_connections uid connections contacts = Except.ok added
      ∧ generated_rows_spec uid connections contacts added := by
  refine ⟨(pairIndices contacts.length).filterMap (fun ij =>
    mk_suggestion uid connections (contacts.getD ij.1 default) (contacts.getD ij.2 default)),
    ?_, ?_⟩
  · unfold generate_connections
    rw [if_neg (by omega)]
  · intro cn
    rw [List.mem_filterMap]
    constructor
    · rintro ⟨⟨i, j⟩, hmem, hmk⟩
      rw [mem_pairIndices] at hmem
      obtain ⟨hs, hno, hcn⟩ := (mk_suggestion_eq_some uid connections contacts i j cn).mp hmk
      exact ⟨i, j, hmem.1, hmem.2, hs, hno, hcn⟩
    · rintro ⟨i, j, hij, hjn, hs, hno, hcn⟩
      refine ⟨(i, j), ?_, ?_⟩
      · rw [mem_pairIndices]; exact ⟨hij, hjn⟩
      · exact (mk_suggestion_eq_some uid connections contacts i j cn).mpr ⟨hs, hno, hcn⟩

/-- Witness for C4 at a concrete two-contact database. -/
theorem C4_generate_connections_characterized_witness :
    ∃ added, generate_connections 1 [] [exampleContact1, exampleContact2] = Except.ok added
      ∧ generated_rows_spec 1 [] [exampleContact1, exampleContact2] added :=
  C4_generate_connections_characterized 1 [] [exampleContact1, exampleContact2] (by decide)

/-- A Contact ORM row as read by the analytics helpers (nullable columns). -/
structure ContactRow where
  industry : Option String
  location : Option String
  company : Option String
  deriving DecidableEq

/-- Python truthiness of a nullable string column: None and "" are falsy. -/
def pyTruthy : Option String → Bool
  | none => false
  | some s => s != ""

/-- The condition of the inner loop of calculate_network_density: the two
contacts share a truthy and equal industry, location or company. -/
def rowRelated (c1 c2 : ContactRow) : Bool :=
  (pyTruthy c1.industry && pyTruthy c2.industry && (c1.industry == c2.industry)) ||
  (pyTruthy c1.location && pyTruthy c2.location && (c1.location == c2.location)) ||
  (pyTruthy c1.company && pyTruthy c2.company && (c1.company == c2.company))

/-- The two nested loops of calculate_network_density, counting related
pairs (contact1 ranges over the list, contact2 over the tail after it). -/
def countRelatedPairs : List ContactRow → Nat
  | [] => 0
  | c :: rest => rest.countP (fun c2 => rowRelated c c2) + countRelatedPairs rest

/-- calculate_network_density (routes/analytics.py). -/
def calculate_network_density (contacts : List ContactRow) : ℚ :=
  if contacts.length < 2 then 0
  else
    let total_possible : ℚ := (contacts.length : ℚ) * ((contacts.length : ℚ) - 1) / 2
    if 0 < total_possible then (countRelatedPairs contacts : ℚ) / total_possible else 0

/-- Spec-side count: the number of unordered pairs of contacts — 2-element
sublists of the list, i.e. position pairs i < j — that are related. -/
def relatedPairCount (contacts : List ContactRow) : Nat :=
  ((contacts.sublistsLen 2).filter (fun s =>
    match s with
    | [a, b] => rowRelated a b
    | _ => false)).length

lemma relatedPairCount_cons (c : ContactRow) (rest : List ContactRow) :
    relatedPairCount (c :: rest)
      = relatedPairCount rest + rest.countP (fun c2 => rowRelated c c2) := by
  unfold relatedPairCount
  rw [List.sublistsLen_succ_cons, List.filter_append, List.length_append]
  congr 1
  rw [List.sublistsLen_one, List.map_map, List.filter_map, List.length_map,
    ← List.countP_eq_length_filter, List.countP_reverse]
  rfl

lemma countRelatedPairs_eq (l : List ContactRow) :
    countRelatedPairs l = relatedPairCount l := by
  induction l with
  | nil => rfl
  | cons c rest ih =>
    rw [relatedPairCount_cons]
    unfold countRelatedPairs
    omega

lemma countRelatedPairs_le (l : List ContactRow) :
    countRelatedPairs l ≤ l.length.choose 2 := by
  induction l with
  | nil => simp [countRelatedPairs]
  | cons c rest ih =>
    have h1 : rest.countP (fun c2 => rowRelated c c2) ≤ rest.length :=
      List.countP_le_length _
    calc countRelatedPairs (c :: rest)
        = rest.countP (fun c2 => rowRelated c c2) + countRelatedPairs rest := rfl
      _ ≤ rest.length + rest.length.choose 2 := Nat.add_le_add h1 ih
      _ = (c :: rest).length.choose 2 := by
          rw [List.length_cons, Nat.choose_succ_succ, Nat.choose_one_right, Nat.add_comm]

lemma choose_two_cast (n : ℕ) : ((n.choose 2 : ℕ) : ℚ) = (n : ℚ) * ((n : ℚ) - 1) / 2 :=
  Nat.cast_choose_two ℚ n

/-- CLAIM C5: calculate_network_density returns 0.0 for fewer than 2
contacts, and otherwise the number of unordered pairs sharing a non-empty
industry, location or company divided by n*(n-1)/2; the result always lies
in [0, 1]. -/
theorem C5_network_density_formula_and_bounds (contacts : List ContactRow) :
    (contacts.length < 2 → calculate_network_density contacts = 0)
  ∧ (2 ≤ contacts.length →
      calculate_network_density contacts =
        (relatedPairCount contacts : ℚ)
          / ((contacts.length : ℚ) * ((contacts.length : ℚ) - 1) / 2))
  ∧ 0 ≤ calculate_network_density contacts
  ∧ calculate_network_density contacts ≤ 1 := by
  by_cases hlen : contacts.length < 2
  · refine ⟨fun _ => ?_, fun h => absurd h (by omega), ?_, ?_⟩ <;>
      simp [calculate_network_density, hlen]
  · have hn : (2 : ℚ) ≤ (contacts.length : ℚ) := by exact_mod_cast Nat.le_of_not_lt hlen
    have hpos : 0 < (contacts.length : ℚ) * ((contacts.length : ℚ) - 1) / 2 := by nlinarith
    have hval : calculate_network_density contacts =
        (relatedPairCount contacts : ℚ)
          / ((contacts.length : ℚ) * ((contacts.length : ℚ) - 1) / 2) := by
      simp only [calculate_network_density]
      rw [if_neg hlen, if_pos hpos, countRelatedPairs_eq]
    have hub : (relatedPairCount contacts : ℚ)
        ≤ (contacts.length : ℚ) * ((contacts.length : ℚ) - 1) / 2 := by
      rw [← choose_two_cast]
      exact_mod_cast (countRelatedPairs_eq contacts) ▸ countRelatedPairs_le contacts
    refine ⟨fun h => absurd h hlen, fun _ => hval, ?_, ?_⟩
    · rw [hval]
      exact div_nonneg (by positivity) (le_of_lt hpos)
    · rw [hval, div_le_one hpos]
      exact hub

/-- Example analytics rows used for the C5 witness. -/
def exampleRows : List ContactRow :=
  [{ industry := some "tech", location := none, company := none },
   { industry := some "tech", location := some "madrid", company := some "" }]

/-- Witness for C5 at a concrete two-row contact list. -/
theorem C5_network_density_formula_and_bounds_witness :
    2 ≤ exampleRows.length ∧
    calculate_network_density exampleRows =
      (relatedPairCount exampleRows : ℚ)
        / ((exampleRows.length : ℚ) * ((exampleRows.length : ℚ) - 1) / 2) :=
  ⟨by decide, (C5_network_density_formula_and_bounds exampleRows).2.1 (by decide)⟩

/-- Embedding of Python str.split(sep) for the single character sep = colon:
split at every occurrence, keeping empty parts. -/
def splitOnColon : List Char → List (List Char)
  | [] => [[]]
  | c :: rest =>
    if c = ':' then [] :: splitOnColon rest
    else
      match splitOnColon rest with
      | [] => [c] :: []
      | h :: t => (c :: h) :: t

/-- The successful two-part branch of verify_password; any other shape of
split(':') raises ValueError in the tuple unpacking, which the except
clause turns into False. -/
def verify_parts (sha256_hexdigest : String → String) (password : String) :
    List (List Char) → Bool
  | [salt, stored] =>
      sha256_hexdigest (password ++ String.mk salt) == String.mk stored
  | _ => false

/-- AuthManager.hash_password: the salt produced by secrets.token_hex(16)
and the SHA-256 hex digest are explicit parameters of the embedding. -/
def hash_password (sha256_hexdigest : String → String) (salt password : String) : String :=
  salt ++ ":" ++ sha256_hexdigest (password ++ salt)

/-- AuthManager.verify_password. -/
def verify_password (sha256_hexdigest : String → String) (password hashed : String) : Bool :=
  verify_parts sha256_hexdigest password (splitOnColon hashed.toList)

/-- Lower-case hexadecimal digits, the alphabet of secrets.token_hex and
hashlib hexdigest outputs. -/
def isHexLower (c : Char) : Bool :=
  c.isDigit || ['a', 'b', 'c', 'd', 'e', 'f'].contains c

lemma splitOnColon_no_colon (l : List Char) (h : ':' ∉ l) : splitOnColon l = [l] := by
  induction l with
  | nil => rfl
  | cons c rest ih =>
    have hc : ¬ (c = ':') := fun hc => h (hc ▸ List.mem_cons_self c rest)
    unfold splitOnColon
    rw [if_neg hc, ih (fun hm => h (List.mem_cons_of_mem c hm))]

lemma splitOnColon_append (a b : List Char) (ha : ':' ∉ a) (hb : ':' ∉ b) :
    splitOnColon (a ++ ':' :: b) = [a, b] := by
  induction a with
  | nil =>
    rw [List.nil_append]
    unfold splitOnColon
    rw [if_pos rfl, splitOnColon_no_colon b hb]
  | cons c rest ih =>
    have hc : ¬ (c = ':') := fun hc => ha (hc ▸ List.mem_cons_self c rest)
    rw [List.cons_append]
    unfold splitOnColon
    rw [if_neg hc, ih (fun hm => ha (List.mem_cons_of_mem c hm))]

lemma hex_no_colon (s : String) (h : s.toList.all isHexLower = true) : ':' ∉ s.toList := by
  intro hm
  have hcolon := List.all_eq_true.mp h ':' hm
  exact absurd hcolon (by decide)

lemma toList_append (a b : String) : (a ++ b).toList = a.toList ++ b.toList :=
  String.data_append a b

lemma verify_parts_ne_two (sha256_hexdigest : String → String) (password : String)
    (parts : List (List Char)) (h : parts.length ≠ 2) :
    verify_parts sha256_hexdigest password parts = false := by
  rcases parts with - | ⟨x, - | ⟨y, - | ⟨z, t⟩⟩⟩
  · rfl
  · rfl
  · exact absurd rfl h
  · rfl

/-- CLAIM C9: password hashing round-trips — verify_password accepts the
output of hash_password for the same password, because the hex salt and
hex digest contain no colon so the stored string splits back into exactly
those two parts; and verify_password returns False (instead of raising)
on any stored string that does not split into exactly two colon-separated
parts. -/
theorem C9_password_hash_roundtrip (sha256_hexdigest : String → String)
    (salt password : String)
    (hsalt : salt.toList.all isHexLower = true)
    (hsha : ∀ s, (sha256_hexdigest s).toList.all isHexLower = true) :
    verify_password sha256_hexdigest password
        (hash_password sha256_hexdigest salt password) = true
  ∧ ∀ stored : String, (splitOnColon stored.toList).length ≠ 2 →
      verify_password sha256_hexdigest password stored = false := by
  constructor
  · unfold verify_password hash_password
    have h1 : ':' ∉ salt.toList := hex_no_colon salt hsalt
    have h2 : ':' ∉ (sha256_hexdigest (password ++ salt)).toList :=
      hex_no_colon _ (hsha (password ++ salt))
    have hsplit : (salt ++ ":" ++ sha256_hexdigest (password ++ salt)).toList
        = salt.toList ++ ':' :: (sha256_hexdigest (password ++ salt)).toList := by
      rw [toList_append, toList_append, List.append_assoc]
      rfl
    rw [hsplit, splitOnColon_append _ _ h1 h2]
    exact beq_self_eq_true (sha256_hexdigest (password ++ salt))
  · intro stored hlen
    unfold verify_password
    exact verify_parts_ne_two sha256_hexdigest password _ hlen

/-- Witness for C9 with a concrete two-character hex "digest" function and
a concrete hex salt. -/
theorem C9_password_hash_roundtrip_witness :
    verify_password (fun _ => "ab") "Secret1!"
        (hash_password (fun _ => "ab") "00ff" "Secret1!") = true
  ∧ ∀ stored : String, (splitOnColon stored.toList).length ≠ 2 →
      verify_password (fun _ => "ab") "Secret1!" stored = false :=
  C9_password_hash_roundtrip (fun _ => "ab") "00ff" "Secret1!" (by decide)
    (fun s => by show ("ab" : String).toList.all isHexLower = true; decide)

/-- The dangerous character list of sanitize_input: angle brackets, double
and single quote, ampersand, NUL. -/
def dangerous_chars : List Char :=
  ['<', '>', Char.ofNat 34, Char.ofNat 39, '&', Char.ofNat 0]

/-- AuthManager.sanitize_input on a str: one str.replace(ch, "") per
dangerous character (each removes every occurrence), then truncation to
the first 1000 characters. -/
def sanitize_input (s : String) : String :=
  let data := dangerous_chars.foldl (fun d ch => d.filter (fun x => x != ch)) s.toList
  String.mk (data.take 1000)

/-- A Python value passed to sanitize_input: a str, or any other object
(isinstance(data, str) false), tagged opaquely. -/
inductive PyValue where
  | str : String → PyValue
  | other : Nat → PyValue
  deriving DecidableEq

/-- AuthManager.sanitize_input including the isinstance guard. -/
def sanitize_input_value : PyValue → PyValue
  | .str s => .str (sanitize_input s)
  | .other o => .other o

lemma mem_fold_filter (cs : List Char) (l : List Char) (x : Char) :
    x ∈ cs.foldl (fun d ch => d.filter (fun y => y != ch)) l ↔ x ∈ l ∧ x ∉ cs := by
  induction cs generalizing l with
  | nil => simp
  | cons c rest ih =>
    rw [List.foldl_cons, ih]
    simp [List.mem_filter, not_or, and_assoc]

lemma fold_filter_of_clean (cs : List Char) (l : List Char) (h : ∀ x ∈ l, x ∉ cs) :
    cs.foldl (fun d ch => d.filter (fun y => y != ch)) l = l := by
  induction cs generalizing l with
  | nil => rfl
  | cons c rest ih =>
    rw [List.foldl_cons]
    rw [List.filter_eq_self.mpr (fun x hx => by
      have := h x hx
      simp only [List.mem_cons, not_or] at this
      simpa using this.1)]
    exact ih l (fun x hx hm => h x hx (List.mem_cons_of_mem c hm))

/-- CLAIM C10: sanitize_input output contains none of the dangerous
characters, has length at most 1000, sanitize_input is idempotent, and a
non-string value is returned unchanged. -/
theorem C10_sanitize_idempotent_and_clean (s : String) (o : Nat) :
    (∀ ch ∈ (sanitize_input s).toList, ch ∉ dangerous_chars)
  ∧ (sanitize_input s).length ≤ 1000
  ∧ sanitize_input (sanitize_input s) = sanitize_input s
  ∧ sanitize_input_value (PyValue.other o) = PyValue.other o := by
  have hclean : ∀ ch ∈ (sanitize_input s).toList, ch ∉ dangerous_chars := by
    intro ch hch
    have hmem : ch ∈ dangerous_chars.foldl
        (fun d c => d.filter (fun y => y != c)) s.toList :=
      List.mem_of_mem_take hch
    exact ((mem_fold_filter dangerous_chars s.toList ch).mp hmem).2
  refine ⟨hclean, ?_, ?_, rfl⟩
  · show (List.take 1000 _).length ≤ 1000
    rw [List.length_take]
    exact min_le_left _ _
  · show sanitize_input (sanitize_input s) = sanitize_input s
    have hlen : (sanitize_input s).toList.length ≤ 1000 := by
      show (List.take 1000 _).length ≤ 1000
      rw [List.length_take]
      exact min_le_left _ _
    set t := sanitize_input s with ht
    show sanitize_input t = t
    unfold sanitize_input
    rw [fold_filter_of_clean dangerous_chars t.toList hclean]
    show String.mk (List.take 1000 t.toList) = t
    rw [List.take_of_length_le hlen]
    rfl

/-- Witness for C10 at a concrete string and a concrete non-string value:
the second sanitization hypothesis-free consequences hold, and the
universally quantified cleanliness conjunct applies to the concrete
character a of the concrete output. -/
theorem C10_sanitize_idempotent_and_clean_witness :
    sanitize_input (sanitize_input "a<b>c&") = sanitize_input "a<b>c&"
  ∧ sanitize_input_value (PyValue.other 7) = PyValue.other 7
  ∧ ('a' ∈ (sanitize_input "a<b>c&").toList ∧ 'a' ∉ dangerous_chars) :=
  ⟨(C10_sanitize_idempotent_and_clean "a<b>c&" 7).2.2.1,
   (C10_sanitize_idempotent_and_clean "a<b>c&" 7).2.2.2,
   by decide, (C10_sanitize_idempotent_and_clean "a<b>c&" 7).1 'a' (by decide)⟩

/-- The in-memory store self._rate_limits: identifier to the list of
recorded attempt times.  Times are integer seconds on the UTC clock. -/
abbrev RateState := List (String × List ℤ)

/-- Python dict read self._rate_limits.get(identifier, []). -/
def lookupAttempts (st : RateState) (identifier : String) : List ℤ :=
  match st.find? (fun kv => kv.1 == identifier) with
  | some kv => kv.2
  | none => []

/-- Python dict write self._rate_limits[identifier] = v. -/
def setAttempts (st : RateState) (identifier : String) (v : List ℤ) : RateState :=
  if st.any (fun kv => kv.1 == identifier) then
    st.map (fun kv => if kv.1 == identifier then (kv.1, v) else kv)
  else st ++ [(identifier, v)]

/-- Return value of rate_limit_check (the dict has reset_time when blocked
and remaining when allowed). -/
structure RateLimitResult where
  allowed : Bool
  attempts : Nat
  reset_time : Option ℤ
  remaining : Option Nat
  deriving DecidableEq

/-- AuthManager.rate_limit_check at wall-clock time now: attempts at or
before window_start = now - window_minutes are dropped and the pruned list
is stored back; the request is blocked when the surviving count reaches
max_attempts. -/
def rate_limit_check (st : RateState) (now : ℤ) (identifier : String)
    (max_attempts : Nat) (window_minutes : ℤ) : RateState × RateLimitResult :=
  let window_start := now - window_minutes * 60
  let kept := (lookupAttempts st identifier).filter (fun t => window_start < t)
  let st1 := setAttempts st identifier kept
  let attempts := kept.length
  if max_attempts ≤ attempts then
    (st1, { allowed := false, attempts := attempts,
            reset_time := some (window_start + window_minutes * 60), remaining := none })
  else
    (st1, { allowed := true, attempts := attempts,
            reset_time := none, remaining := some (max_attempts - attempts) })

/-- AuthManager.record_attempt. -/
def record_attempt (st : RateState) (now : ℤ) (identifier : String) : RateState :=
  setAttempts st identifier (lookupAttempts st identifier ++ [now])

/-- A row of the user table (columns the auth routes read). -/
structure User where
  id : Nat
  username : String
  email : String
  password_hash : Option String
  deriving DecidableEq

/-- POST /auth/login (routes/auth.py): the new rate-limit state and the
HTTP status code.  The rate-limit identifier is login_ followed by the
client IP; max_login_attempts is app.config MAX_LOGIN_ATTEMPTS; commit_ok
models whether the success-path database commits raise. -/
def login (sha256_hexdigest : String → String) (st : RateState) (now : ℤ)
    (max_login_attempts : Nat) (users : List User)
    (ip rawUsername rawPassword : String) (commit_ok : Bool) : RateState × Nat :=
  let username := sanitize_input rawUsername
  let password := sanitize_input rawPassword
  let idf := "login_" ++ ip
  let r := rate_limit_check st now idf max_login_attempts 15
  if r.2.allowed = false then (r.1, 429)
  else
    match users.find? (fun u => u.username == username || u.email == username) with
    | none => (record_attempt r.1 now idf, 401)
    | some user =>
      if !(pyTruthy user.password_hash)
          || !(verify_password sha256_hexdigest password (user.password_hash.getD "")) then
        (record_attempt r.1 now idf, 401)
      else if commit_ok then (r.1, 200) else (r.1, 500)

lemma lookup_setAttempts (st : RateState) (identifier : String) (v : List ℤ) :
    lookupAttempts (setAttempts st identifier v) identifier = v := by
  unfold setAttempts
  split_ifs with h
  · induction st with
    | nil => simp at h
    | cons kv rest ih =>
      rw [List.map_cons]
      by_cases hk : kv.1 == identifier
      · unfold lookupAttempts
        rw [if_pos hk, List.find?_cons_of_pos]
        exact hk
      · rw [if_neg hk]
        unfold lookupAttempts
        rw [List.find?_cons_of_neg _ (by simpa using hk)]
        have hrest : rest.any (fun kv => kv.1 == identifier) = true := by
          rcases List.any_eq_true.mp h with ⟨x, hx, hpx⟩
          rcases List.mem_cons.mp hx with rfl | hx2
          · exact absurd hpx (by simpa using hk)
          · exact List.any_eq_true.mpr ⟨x, hx2, hpx⟩
        exact ih hrest
  · unfold lookupAttempts
    have hnone : st.find? (fun kv => kv.1 == identifier) = none := by
      rw [List.find?_eq_none]
      intro x hx hpx
      exact h (List.any_eq_true.mpr ⟨x, hx, hpx⟩)
    rw [List.find?_append, hnone]
    simp

/-- CLAIM C6: the in-process rate-limit counter gates login:
rate_limit_check returns allowed = False exactly when the number of
recorded attempts for the identifier inside the window reaches
max_attempts, reports remaining = max_attempts - attempts when allowed,
record_attempt appends the current time to the identifier's list, and the
login endpoint answers HTTP 429 if and only if the check for its
identifier login_ip is not allowed. -/
theorem C6_rate_limit_gates_login (st : RateState) (now : ℤ) (identifier : String)
    (max_attempts : Nat) (window_minutes : ℤ) (sha256_hexdigest : String → String)
    (users : List User) (ip rawUsername rawPassword : String) (commit_ok : Bool) :
    ((rate_limit_check st now identifier max_attempts window_minutes).2.allowed = false
      ↔ max_attempts ≤ ((lookupAttempts st identifier).filter
          (fun t => now - window_minutes * 60 < t)).length)
  ∧ ((rate_limit_check st now identifier max_attempts window_minutes).2.allowed = true →
      (rate_limit_check st now identifier max_attempts window_minutes).2.remaining
        = some (max_attempts - ((lookupAttempts st identifier).filter
            (fun t => now - window_minutes * 60 < t)).length))
  ∧ lookupAttempts (record_attempt st now identifier) identifier
      = lookupAttempts st identifier ++ [now]
  ∧ ((login sha256_hexdigest st now max_attempts users ip rawUsername rawPassword
        commit_ok).2 = 429
      ↔ (rate_limit_check st now ("login_" ++ ip) max_attempts 15).2.allowed = false) := by
  refine ⟨?_, ?_, ?_, ?_⟩
  · simp only [rate_limit_check]
    split_ifs with h
    · simpa using h
    · simpa using h
  · simp only [rate_limit_check]
    split_ifs with h
    · intro hcontra
      simp at hcontra
    · intro _
      rfl
  · exact lookup_setAttempts st identifier _
  · simp only [login]
    by_cases h : (rate_limit_check st now ("login_" ++ ip) max_attempts 15).2.allowed
        = false
    · rw [if_pos h]
      simp [h]
    · rw [if_neg h]
      have hgoal : ∀ (rs : RateState) (n : Nat), n ≠ 429 →
          (((rs, n) : RateState × Nat).2 = 429
            ↔ (rate_limit_check st now ("login_" ++ ip) max_attempts 15).2.allowed
                = false) :=
        fun rs n hx => ⟨fun hx2 => absurd hx2 hx, fun hall => absurd hall h⟩
      cases hf : users.find? (fun u => u.username == sanitize_input rawUsername
          || u.email == sanitize_input rawUsername) with
      | none => exact hgoal _ 401 (by decide)
      | some user =>
        dsimp only
        by_cases hpw : (!(pyTruthy user.password_hash)
            || !(verify_password sha256_hexdigest (sanitize_input rawPassword)
                (user.password_hash.getD ""))) = true
        · rw [if_pos hpw]
          exact hgoal _ 401 (by decide)
        · rw [if_neg hpw]
          by_cases hc : commit_ok = true
          · rw [if_pos hc]
            exact hgoal _ 200 (by decide)
          · rw [if_neg hc]
            exact hgoal _ 500 (by decide)

/-- Rate state used by the C6 witness: five recorded login attempts. -/
def exampleRateState : RateState := [("login_1.2.3.4", [100, 200, 300, 400, 500])]

/-- Witness for C6 at a concrete blocked state: with five attempts inside
the window and MAX_LOGIN_ATTEMPTS = 5, the check is not allowed and the
login endpoint answers 429. -/
theorem C6_rate_limit_gates_login_witness :
    (rate_limit_check exampleRateState 600 "login_1.2.3.4" 5 15).2.allowed = false
  ∧ (login (fun _ => "ab") exampleRateState 600 5 [] "1.2.3.4" "u" "p" true).2 = 429 :=
  ⟨(C6_rate_limit_gates_login exampleRateState 600 "login_1.2.3.4" 5 15 (fun _ => "ab")
      [] "1.2.3.4" "u" "p" true).1.mpr (by decide),
   (C6_rate_limit_gates_login exampleRateState 600 "login_1.2.3.4" 5 15 (fun _ => "ab")
      [] "1.2.3.4" "u" "p" true).2.2.2.mpr
     ((C6_rate_limit_gates_login exampleRateState 600 "login_1.2.3.4" 5 15 (fun _ => "ab")
      [] "1.2.3.4" "u" "p" true).1.mpr (by decide))⟩

/-- Character class [a-zA-Z0-9._%+-] of the email regex local part. -/
def email_local_char (c : Char) : Bool :=
  c.isAlpha || c.isDigit || ['.', '_', '%', '+', '-'].contains c

/-- Character class [a-zA-Z0-9.-] of the email regex domain part. -/
def email_domain_char (c : Char) : Bool :=
  c.isAlpha || c.isDigit || ['.', '-'].contains c

/-- Matcher for the regex tail [a-zA-Z0-9.-]+ then a literal dot then
[a-zA-Z]{2,}: only a split at the last dot can succeed, because a split at
any earlier dot would leave a dot inside the final letters-only group. -/
def email_domain_ok (dom : List Char) : Bool :=
  let revTld := dom.reverse.takeWhile (fun c => c != '.')
  if revTld.length = dom.length then false
  else
    let tld := revTld.reverse
    let d := dom.take (dom.length - tld.length - 1)
    !d.isEmpty && d.all email_domain_char
      && decide (2 ≤ tld.length) && tld.all Char.isAlpha

/-- AuthManager.validate_email: re.match of the anchored pattern
local+ at-sign domain+ dot letters-two-or-more; the dollar anchor of
Python re also matches just before a single trailing newline. -/
def validate_email (email : String) : Bool :=
  let cs0 := email.toList
  let cs := if cs0.getLast? == some (Char.ofNat 10) then cs0.dropLast else cs0
  let loc := cs.takeWhile (fun c => c != '@')
  match cs.drop loc.length with
  | [] => false
  | _ :: dom =>
      !loc.isEmpty && loc.all email_local_char
        && !(dom.contains '@') && email_domain_ok dom

/-- The special-character set of validate_password_strength. -/
def special_chars : List Char := "!@#$%^&*()_+-=[]\x7b\x7d|;:,.<>?".toList

/-- The error list of validate_password_strength (with the configured
PASSWORD_MIN_LENGTH of 8); the register route only uses its emptiness. -/
def password_errors (password : String) : List String :=
  (if password.length < 8 then
    ["Password must be at least 8 characters long"] else []) ++
  (if !(password.toList.any Char.isUpper) then
    ["Password must contain at least one uppercase letter"] else []) ++
  (if !(password.toList.any Char.isLower) then
    ["Password must contain at least one lowercase letter"] else []) ++
  (if !(password.toList.any Char.isDigit) then
    ["Password must contain at least one number"] else []) ++
  (if !(password.toList.any (fun c => special_chars.contains c)) then
    ["Password must contain at least one special character"] else [])

/-- The username regex: one or more of [a-zA-Z0-9_], anchored (again the
dollar anchor also matches just before one trailing newline). -/
def username_regex_ok (username : String) : Bool :=
  let cs0 := username.toList
  let cs := if cs0.getLast? == some (Char.ofNat 10) then cs0.dropLast else cs0
  !cs.isEmpty && cs.all (fun c => c.isAlpha || c.isDigit || c == '_')

/-- Registration request body after the validate_input decorator has
checked presence and types of username, email and password (it then
sanitizes every string field). -/
structure RegisterData where
  username : String
  email : String
  password : String
  deriving DecidableEq

/-- POST /auth/register (routes/auth.py): the new rate-limit state and
the HTTP status code.  The rate-limit identifier is register_ followed by
the client IP with max_attempts 3 and a 60-minute window; commit_ok
models whether the database commits in the try block raise (hashing and
token generation cannot change the status code). -/
def register (st : RateState) (now : ℤ) (users : List User) (ip : String)
    (commit_ok : Bool) (data : RegisterData) : RateState × Nat :=
  let username := sanitize_input data.username
  let email := sanitize_input data.email
  let password := sanitize_input data.password
  let idf := "register_" ++ ip
  let r := rate_limit_check st now idf 3 60
  if r.2.allowed = false then (r.1, 429)
  else
    let st2 := record_attempt r.1 now idf
    if validate_email email = false then (st2, 400)
    else if password_errors password ≠ [] then (st2, 400)
    else if username.length < 3 ∨ 50 < username.length then (st2, 400)
    else if username_regex_ok username = false then (st2, 400)
    else if users.any (fun u => u.username == username) = true then (st2, 409)
    else if users.any (fun u => u.email == email) = true then (st2, 409)
    else if commit_ok = true then (st2, 201) else (st2, 500)

/-- The error handlers registered in main.py: the handler installed for
each of 401, 403 and 429 responds with that same status code. -/
def registered_error_handlers : List (Nat × Nat) :=
  [(401, 401), (403, 403), (429, 429)]

/-- CLAIM C7: every response of the registration route is 201 or one of
the standard error codes 400/401/403/404/409/429/500; in particular it
returns 429 exactly when rate-limited, 400 on invalid email, weak
password or bad username, 409 when the username or email already exists,
and 500 when the database commit raises; and each registered error
handler keeps its status code inside the same set. -/
theorem C7_register_error_status_codes (st : RateState) (now : ℤ)
    (users : List User) (ip : String) (commit_ok : Bool) (data : RegisterData) :
    ((register st now users ip commit_ok data).2 = 201
      ∨ (register st now users ip commit_ok data).2
          ∈ ([400, 401, 403, 404, 409, 429, 500] : List Nat))
  ∧ ((register st now users ip commit_ok data).2 = 429
      ↔ (rate_limit_check st now ("register_" ++ ip) 3 60).2.allowed = false)
  ∧ ((rate_limit_check st now ("register_" ++ ip) 3 60).2.allowed = true →
      validate_email (sanitize_input data.email) = false →
      (register st now users ip commit_ok data).2 = 400)
  ∧ ((rate_limit_check st now ("register_" ++ ip) 3 60).2.allowed = true →
      validate_email (sanitize_input data.email) = true →
      password_errors (sanitize_input data.password) ≠ [] →
      (register st now users ip commit_ok data).2 = 400)
  ∧ ((rate_limit_check st now ("register_" ++ ip) 3 60).2.allowed = true →
      validate_email (sanitize_input data.email) = true →
      password_errors (sanitize_input data.password) = [] →
      (((sanitize_input data.username).length < 3
          ∨ 50 < (sanitize_input data.username).length)
        ∨ username_regex_ok (sanitize_input data.username) = false) →
      (register st now users ip commit_ok data).2 = 400)
  ∧ ((rate_limit_check st now ("register_" ++ ip) 3 60).2.allowed = true →
      validate_email (sanitize_input data.email) = true →
      password_errors (sanitize_input data.password) = [] →
      ¬ ((sanitize_input data.username).length < 3
          ∨ 50 < (sanitize_input data.username).length) →
      username_regex_ok (sanitize_input data.username) = true →
      (users.any (fun u => u.username == sanitize_input data.username) = true
        ∨ (users.any (fun u => u.username == sanitize_input data.username) = false
            ∧ users.any (fun u => u.email == sanitize_input data.email) = true)) →
      (register st now users ip commit_ok data).2 = 409)
  ∧ ((rate_limit_check st now ("register_" ++ ip) 3 60).2.allowed = true →
      validate_email (sanitize_input data.email) = true →
      password_errors (sanitize_input data.password) = [] →
      ¬ ((sanitize_input data.username).length < 3
          ∨ 50 < (sanitize_input data.username).length) →
      username_regex_ok (sanitize_input data.username) = true →
      users.any (fun u => u.username == sanitize_input data.username) = false →
      users.any (fun u => u.email == sanitize_input data.email) = false →
      commit_ok = false →
      (register st now users ip commit_ok data).2 = 500)
  ∧ (∀ h ∈ registered_error_handlers,
      h.2 = h.1 ∧ h.1 ∈ ([400, 401, 403, 404, 409, 429, 500] : List Nat)) := by
  refine ⟨?_, ?_, ?_, ?_, ?_, ?_, ?_, ?_⟩
  · simp only [register]
    split_ifs <;> simp
  · simp only [register]
    by_cases h : (rate_limit_check st now ("register_" ++ ip) 3 60).2.allowed = false
    · rw [if_pos h]
      simp [h]
    · rw [if_neg h]
      have hgoal : ∀ (rs : RateState) (n : Nat), n ≠ 429 →
          (((rs, n) : RateState × Nat).2 = 429
            ↔ (rate_limit_check st now ("register_" ++ ip) 3 60).2.allowed = false) :=
        fun rs n hx => ⟨fun h2 => absurd h2 hx, fun ha => absurd ha h⟩
      split_ifs
      · exact hgoal _ 400 (by decide)
      · exact hgoal _ 400 (by decide)
      · exact hgoal _ 400 (by decide)
      · exact hgoal _ 400 (by decide)
      · exact hgoal _ 409 (by decide)
      · exact hgoal _ 409 (by decide)
      · exact hgoal _ 201 (by decide)
      · exact hgoal _ 500 (by decide)
  · intro h1 h2
    simp only [register]
    rw [if_neg (by simp [h1]), if_pos h2]
  · intro h1 h2 h3
    simp only [register]
    rw [if_neg (by simp [h1]), if_neg (by simp [h2]), if_pos h3]
  · intro h1 h2 h3 h4
    simp only [register]
    rw [if_neg (by simp [h1]), if_neg (by simp [h2]), if_neg (by simp [h3])]
    rcases h4 with hlen | hregex
    · rw [if_pos hlen]
    · by_cases hlen2 : (sanitize_input data.username).length < 3
          ∨ 50 < (sanitize_input data.username).length
      · rw [if_pos hlen2]
      · rw [if_neg hlen2, if_pos hregex]
  · intro h1 h2 h3 h4 h5 h6
    simp only [register]
    rw [if_neg (by simp [h1]), if_neg (by simp [h2]), if_neg (by simp [h3]),
      if_neg h4, if_neg (by simp [h5])]
    rcases h6 with hu | ⟨hu, he⟩
    · rw [if_pos hu]
    · rw [if_neg (by simp [hu]), if_pos he]
  · intro h1 h2 h3 h4 h5 h6 h7 h8
    simp only [register]
    rw [if_neg (by simp [h1]), if_neg (by simp [h2]), if_neg (by simp [h3]),
      if_neg h4, if_neg (by simp [h5]), if_neg (by simp [h6]),
      if_neg (by simp [h7]), if_neg (by simp [h8])]
  · intro h hmem
    fin_cases hmem <;> exact ⟨rfl, by decide⟩

/-- Rate state used by the C7 witness: three recorded registration
attempts from the client IP inside the 60-minute window. -/
def exampleRegisterRate : RateState := [("register_9.9.9.9", [0, 100, 200])]

/-- Request body used by the C7 witness (invalid email). -/
def exampleRegisterData : RegisterData :=
  { username := "bob", email := "bademail", password := "Secret1!" }

/-- Witness for C7 at concrete inputs: a rate-limited request answers 429,
and an allowed request with an invalid email answers 400. -/
theorem C7_register_error_status_codes_witness :
    (register exampleRegisterRate 300 [] "9.9.9.9" true exampleRegisterData).2 = 429
  ∧ (register [] 300 [] "9.9.9.9" true exampleRegisterData).2 = 400 :=
  ⟨(C7_register_error_status_codes exampleRegisterRate 300 [] "9.9.9.9" true
      exampleRegisterData).2.1.mpr (by decide),
   (C7_register_error_status_codes [] 300 [] "9.9.9.9" true
      exampleRegisterData).2.2.1 (by decide) (by decide)⟩

end Nexify
